import Mathlib

/-!
Verification of the researcher-ranking pipeline
(`ranking-ciencias-sociales-chile`): shallow embedding of the
acquisition, reconciliation, cleaning, scoring and sorting code,
together with theorems settling the specification's claims.

Numeric dataframe columns are embedded as `Int` (the code coerces them
with `pd.to_numeric(...).fillna(0).astype(int)`), real-valued scores as
`ℚ`.
-/

namespace RankingCS

/-- A Google-Scholar author record, the common shape produced by the
scraping adapters (`scraper_serpapi.get_author_by_id`,
`build_ranking.manual_entry_mode`) and consumed by
`metrics.MetricsCalculator`.  `affiliation` and `email_domain` are
`Option` because pandas cells can be missing (`pd.notna` checks in
`calculate_consistency_index`). -/
structure Author where
  scholar_id : String
  name : String
  affiliation : Option String
  email_domain : Option String
  interests : List String
  h_index : Int
  h_index_5y : Int
  i10_index : Int
  i10_index_5y : Int
  citations : Int
  citations_5y : Int
deriving DecidableEq, Repr

/-- Duplicate removal of `MetricsCalculator._clean_data`:
`df.drop_duplicates(subset='scholar_id', keep='first')` keeps the first
row for each `scholar_id`, preserving order. -/
def dedupScholar : List String → List Author → List Author
  | _, [] => []
  | seen, a :: rest =>
    if a.scholar_id ∈ seen then dedupScholar seen rest
    else a :: dedupScholar (a.scholar_id :: seen) rest

/-- `MetricsCalculator._clean_data`: numeric coercion (identity in this
typed embedding) followed by the `scholar_id` dedup. -/
def cleanData (authors : List Author) : List Author :=
  dedupScholar [] authors

/-- Bucket 1 of `calculate_consistency_index`: affiliation present and
longer than 5 characters (`pd.notna(...)` and `len(...) > 5`). -/
def tieneAfiliacion (a : Author) : Bool :=
  match a.affiliation with
  | some s => 5 < s.length
  | none => false

/-- Bucket 2: the interests list is non-empty. -/
def tieneIntereses (a : Author) : Bool :=
  !a.interests.isEmpty

/-- Bucket 3: email domain present and longer than 3 characters. -/
def tieneEmail (a : Author) : Bool :=
  match a.email_domain with
  | some s => 3 < s.length
  | none => false

/-- Bucket 4: h-index/citation coherence, `h > 0 and cites > 0` and
`cites >= (h*h) * 0.5`. -/
def coherenciaCitas (a : Author) : Bool :=
  0 < a.h_index && 0 < a.citations
    && decide ((a.h_index : ℚ) * (a.h_index : ℚ) * 0.5 ≤ (a.citations : ℚ))

/-- Bucket 5: recent activity, 5-year h-index greater than zero. -/
def actividadReciente (a : Author) : Bool :=
  0 < a.h_index_5y

/-- `MetricsCalculator.calculate_consistency_index`, per row: the score
starts at 0 and each of the five buckets independently adds 20. -/
def consistencyIndex (a : Author) : ℕ :=
  (if tieneAfiliacion a then 20 else 0)
    + (if tieneIntereses a then 20 else 0)
    + (if tieneEmail a then 20 else 0)
    + (if coherenciaCitas a then 20 else 0)
    + (if actividadReciente a then 20 else 0)

/-- `series.max()` of a pandas column (non-empty case). -/
def maxQ : List ℚ → ℚ
  | [] => 0
  | v :: vs => vs.foldl max v

/-- `series.min()` of a pandas column (non-empty case). -/
def minQ : List ℚ → ℚ
  | [] => 0
  | v :: vs => vs.foldl min v

/-- The `normalize` closure of `calculate_impact_score`: min-max
normalisation of one value of a column to 0-100, with the constant
column sent to 50. -/
def normQ (col : List ℚ) (v : ℚ) : ℚ :=
  if maxQ col = minQ col then 50
  else (v - minQ col) / (maxQ col - minQ col) * 100

/-- `Series.round(2)` on the values at hand: two-decimal rounding.
(pandas rounds half to even; on every value reached by the claims the
scaled argument is an integer, where both rounding rules agree.) -/
def round2 (x : ℚ) : ℚ :=
  (round (x * 100) : ℤ) / 100

/-- `MetricsCalculator.calculate_impact_score`, per row `a` of the
batch: weighted sum of the four per-column min-max normalised metrics,
weights 0.4 / 0.3 / 0.2 / 0.1, rounded to two decimals. -/
def impactScore (batch : List Author) (a : Author) : ℚ :=
  round2 (normQ (batch.map (fun b => (b.h_index : ℚ))) (a.h_index : ℚ) * 0.4
    + normQ (batch.map (fun b => (b.citations : ℚ))) (a.citations : ℚ) * 0.3
    + normQ (batch.map (fun b => (b.h_index_5y : ℚ))) (a.h_index_5y : ℚ) * 0.2
    + normQ (batch.map (fun b => (b.i10_index : ℚ))) (a.i10_index : ℚ) * 0.1)

/-- A row of the scored dataframe: the author plus the `c_index` and
`impact_score` columns added at the start of `generate_ranking`. -/
structure Scored extends Author where
  c_index : ℕ
  impact_score : ℚ
deriving DecidableEq, Repr

/-- The scored dataframe: `self.df` after `_clean_data` with the
`c_index` and `impact_score` columns attached (impact is normalised
over the cleaned batch itself). -/
def scoredData (authors : List Author) : List Scored :=
  (cleanData authors).map fun a =>
    { toAuthor := a
      c_index := consistencyIndex a
      impact_score := impactScore (cleanData authors) a }

/-- The sort key of `generate_ranking` with its default arguments:
`sort_values(by=['h_index', 'citations'], ascending=[False, False])`.
`rRank x y` holds when `x` may come before `y`: strictly larger
h-index, or equal h-index and no smaller citation count. -/
def rRank (x y : Scored) : Prop :=
  y.h_index < x.h_index ∨ (x.h_index = y.h_index ∧ y.citations ≤ x.citations)

instance : DecidableRel rRank := fun x y => by
  unfold rRank; infer_instance

instance : IsTotal Scored rRank := by
  constructor
  intro x y
  rcases lt_trichotomy x.h_index y.h_index with h | h | h
  · exact Or.inr (Or.inl h)
  · rcases le_total x.citations y.citations with hc | hc
    · exact Or.inr (Or.inr ⟨h.symm, hc⟩)
    · exact Or.inl (Or.inr ⟨h, hc⟩)
  · exact Or.inl (Or.inl h)

instance : IsTrans Scored rRank := by
  constructor
  intro a b c hab hbc
  rcases hab with h1 | ⟨h1, h1c⟩ <;> rcases hbc with h2 | ⟨h2, h2c⟩
  · exact Or.inl (h2.trans h1)
  · exact Or.inl (h2 ▸ h1)
  · exact Or.inl (h1 ▸ h2)
  · exact Or.inr ⟨h1.trans h2, h2c.trans h1c⟩

/-- The sorting step of `generate_ranking`.  A multi-column pandas
`sort_values` is a stable lexicographic sort (`numpy.lexsort`), which
we embed as stable insertion sort on the lexicographic key. -/
def sortScored (rows : List Scored) : List Scored :=
  List.insertionSort rRank rows

/-- A row of the final ranking dataframe: scored row plus the 1-based
`rank` column. -/
structure Ranked extends Scored where
  rank : ℕ
deriving DecidableEq, Repr

/-- `ranking['rank'] = range(1, len(ranking) + 1)`: attach consecutive
1-based positions to the sorted rows. -/
def conRango : ℕ → List Scored → List Ranked
  | _, [] => []
  | n, a :: rest => { toScored := a, rank := n } :: conRango (n + 1) rest

/-- `MetricsCalculator.generate_ranking` with its default arguments:
score the cleaned batch, sort by h-index then citations (both
descending, stable), then attach the 1-based rank column. -/
def generateRanking (authors : List Author) : List Ranked :=
  conRango 1 (sortScored (scoredData authors))

/-- An OpenAlex author record as built by
`openalex_scraper.parse_author`. -/
structure OAuthor where
  openalex_id : String
  orcid : String
  nombre : String
  institucion : String
  pais_institucion : String
  ror : String
  h_index : Int
  i10_index : Int
  citas : Int
  trabajos : Int
  campo_principal : String
  dominio : String
  topics : String
  works_api_url : String
deriving DecidableEq, Repr

/-- One step of the duplicate-combination loop of
`openalex_scraper.main` (lines 487-496): insert `a` into the ordered
dictionary keyed by `openalex_id`; on a key collision the stored record
is replaced only when the incoming record has strictly more
citations. -/
def insertaAutor : List (String × OAuthor) → OAuthor → List (String × OAuthor)
  | [], a => [(a.openalex_id, a)]
  | (k, v) :: rest, a =>
    if k = a.openalex_id then
      if v.citas < a.citas then (k, a) :: rest else (k, v) :: rest
    else (k, v) :: insertaAutor rest a

/-- `openalex_scraper.main` (lines 487-497): fold all fetched records
through the dictionary (a Python `dict` preserves first-insertion
order) and read back `all_authors.values()`. -/
def combineAuthors (authors : List OAuthor) : List OAuthor :=
  (authors.foldl insertaAutor []).map Prod.snd

/-- `procesar_ranking.H_INDEX_MINIMO`: minimum h-index kept by the
threshold filter. -/
def H_INDEX_MINIMO : Int := 1

/-- `procesar_ranking.EXCLUIR_NOMBRES`: denylisted researcher names. -/
def EXCLUIR_NOMBRES : List String :=
  [
"Arend Lijphart",
   "Alain Touraine",
   "Max Weber",
   "Harold H. Joachim",
   "Marisa Bucheli",
   "Andrea Vigorito",
   "Adolfo Garcé",
   "Liliana de Riz",
   "Guillermo Durán",
   "Ricardo Paes de Barros",
   "Travis Gagie",
   "Diana Fletschner",
   "Diana Krüger",
   "José Gabriel Palma",
   "Fernando Gutiérrez Hidalgo",
   "Pablo A. Miranda",
   "W.G.P. Kumari",
   "Stefano Novellani",
   "J. Arzúa",
   "Fernando Alonso",
   "Pablo González",
   "Carola Blázquez",
   "Antônio Galvão Novaes",
   "Juan M. Corchado"]

/-- `procesar_ranking.EXCLUIR_AFILIACIONES`: denylisted affiliation
strings. -/
def EXCLUIR_AFILIACIONES : List String :=
  [
"Gobierno de Chile",
   "Partnership for Economic Policy",
   "World Bank Group",
   "World Health Organization",
   "University of Cambridge",
   "Vellore Institute of Technology",
   "University of Wollongong",
   "McGill University",
   "Dalhousie University",
   "IFP Énergies nouvelles",
   "Universitat de Barcelona",
   "Universidad Complutense de Madrid",
   "Universidad de Buenos Aires",
   "Universidade de Vigo",
   "Hospital Universitario de Canarias",
   "Universidad de la República"]

/-- `procesar_ranking.CAMPOS_EXCLUIR`: denylisted raw field labels. -/
def CAMPOS_EXCLUIR : List String :=
  [
"Computer Science",
   "Engineering",
   "Mathematics",
   "Physics and Astronomy",
   "Environmental Science",
   "Medicine",
   "Neuroscience"]

/-- `procesar_ranking.SCHOLAR_IDS_CONOCIDOS`, as an association list in
the dictionary's insertion order.  The Python literal repeats a few
keys with identical values (later binding wins in a `dict`); the
collapsed 185-entry table below is the resulting dictionary. -/
def SCHOLAR_IDS_CONOCIDOS : List (String × String) :=
  [
("David Altman", "oZGkFZoAAAAJ"),
   ("Darío Páez", "KVva2AIAAAAJ"),
   ("Francisca Fariña Rivera", "4JpTKi0AAAAJ"),
   ("Salvador Chacón Moscoso", "LeQUGDIAAAAJ"),
   ("Miguel Alfaro", "0zwnLpAAAAAJ"),
   ("Juan-Carlos Ferrer", "1N8BNr8AAAAJ"),
   ("Juan‐Carlos Ferrer", "1N8BNr8AAAAJ"),
   ("Cristóbal Rovira Kaltwasser", "RdXwR1EAAAAJ"),
   ("Alejandro Micco", "BUc-k1MAAAAJ"),
   ("Claudio E. Montenegro", "qO3kU6UAAAAJ"),
   ("Patricio Navia", "IBcs-ZwAAAAJ"),
   ("José Joaquín Brunner", "TX3te0QAAAAJ"),
   ("Alejandra Mizala", "zmkA7uwAAAAJ"),
   ("Daniel Chernilo", "QASCP9kAAAAJ"),
   ("Vicente Sisto", "g_QWxVAAAAAJ"),
   ("Paula Ascorra", "YVBJgLwAAAAJ"),
   ("Aldo Mascareño", "7H4k-70AAAAJ"),
   ("Mahía Saracostti", "pWZjC4AAAAAJ"),
   ("Juan Carlos Castillo", "CPJ0qfQAAAAJ"),
   ("Nicolás M. Somma", "yyr6ge0AAAAJ"),
   ("Cristóbal Villalobos", "PM99kxMAAAAJ"),
   ("Mauricio Morales", "BPVbhToAAAAJ"),
   ("Javier Núñez", "2a__7xUAAAAJ"),
   ("Aldo Madariaga", "n0UQqa4AAAAJ"),
   ("Jenny Assaél", "4bK5XUQAAAAJ"),
   ("Cristián Parker Gumucio", "8kIJIa4AAAAJ"),
   ("Cynthia Duk", "bxBuLfMAAAAJ"),
   ("Nicole Jenne", "HaX6qs4AAAAJ"),
   ("Kathya Araujo", "nukHXv0AAAAJ"),
   ("Antonio Stecher", "rFUqIdsAAAAJ"),
   ("Felipe Link", "9cxoZ8MAAAAJ"),
   ("Cristián Cox", "9b8DoS8AAAAJ"),
   ("Anahí Urquiza", "eU41CdMAAAAJ"),
   ("Luis Quezada", "rVVdDTMAAAAJ"),
   ("Felipe González", "dwxwyqwAAAAJ"),
   ("Elizabeth Lira", "VDEOCBgAAAAJ"),
   ("María Luisa Méndez", "DCQO_AgAAAAJ"),
   ("Antoine Maillet", "Y4q4OfoAAAAJ"),
   ("Rossana Castiglioni", "gkHNPiwAAAAJ"),
   ("Modesto Gayo", "k-2PLOsAAAAJ"),
   ("Alejandra Falabella", "G-JkMjwAAAAJ"),
   ("Vicente Espinoza", "L8DtBnQAAAAJ"),
   ("Caterine Galaz Valderrama", "iBW6M4gAAAAJ"),
   ("Mauricio López", "nWzmqycAAAAJ"),
   ("Esteban Puentes", "zhJ_wAUAAAAJ"),
   ("José Tessada", "i3T7_ocAAAAJ"),
   ("Marcela Aracena", "kT-y4RgAAAAJ"),
   ("Nicolás Didier", "rDyVn7QAAAAJ"),
   ("Eduardo Restrepo", "G51Wqn0AAAAJ"),
   ("Héctor López-Ospina", "e_0UrIMAAAAJ"),
   ("Iskra Pávez Soto", "PZWoraMAAAAJ"),
   ("Jaime Miranda", "wd06koYAAAAJ"),
   ("Matías Berthelon", "8nUNv-QAAAAJ"),
   ("Pedro Palominos", "Q81kXv4AAAAJ"),
   ("Alejandro Corvalán", "KiGpYt4AAAAJ"),
   ("Ricardo A. Ayala", "p4WjxQoAAAAJ"),
   ("Juan Diego García-Castro", "o_ReskMAAAAJ"),
   ("Juan Diego García‐Castro", "o_ReskMAAAAJ"),
   ("María Cristina Riff", "V9BgXgMAAAAJ"),
   ("Héctor Opazo Carvajal", "gdu2HV8AAAAJ"),
   ("Luis Maldonado", "jw0bvrYAAAAJ"),
   ("Verónica Gómez Urrutia", "HEFa7TgAAAAJ"),
   ("Carlos Rodríguez Garcés", "PQix8vkAAAAJ"),
   ("Carmen Gloria Núñez", "3DJ2obYAAAAJ"),
   ("Valeria Herrera Fernández", "KpR_9ssAAAAJ"),
   ("Alexandre Janiak", "ZUI_nRsAAAAJ"),
   ("Francisco Pino", "gglIsfcAAAAJ"),
   ("Martina Yopo Díaz", "d_EShyMAAAAJ"),
   ("Manuela García Quiroga", "YphStrYAAAAJ"),
   ("Carmen Le Foulon", "wRPMNvUAAAAJ"),
   ("Carlos Villalobos Barría", "ys7_WJsAAAAJ"),
   ("Alexander Panez Pinto", "j0jLMmUAAAAJ"),
   ("Francisco Soto", "bQFVXJIAAAAJ"),
   ("Felipe Agüero", "JSPWdfYAAAAJ"),
   ("Juan Carlos Peña Axt", "M1HHaLAAAAAJ"),
   ("Lyonel Laulié", "YrUlat4AAAAJ"),
   ("María Emilia Tijoux", "w4yfwDwAAAAJ"),
   ("Macarena Trujillo Cristoffanini", "WUBNh6cAAAAJ"),
   ("Gianinna Muñoz Arce", "69DPxiIAAAAJ"),
   ("Cristóbal Villalobos Dintrans", "2Luja0YAAAAJ"),
   ("Alicia Salomone", "dt0d5aYAAAAJ"),
   ("Jeanne W. Simon", "_mHLvikAAAAJ"),
   ("Pablo Camus", "__gOnGQAAAAJ"),
   ("Taly Reininger", "s-2CFoYAAAAJ"),
   ("Rodrigo Medel Sierralta", "nYgItkMAAAAJ"),
   ("Rodrigo M. Medel", "nYgItkMAAAAJ"),
   ("María Teresa Rojas Fabris", "FJPZ-FMAAAAJ"),
   ("Pamela Soto García", "LHY0duUAAAAJ"),
   ("Carlos Durán Migliardi", "B4nKyykAAAAJ"),
   ("Lorena Pérez-Roa", "6fbnHhQAAAAJ"),
   ("Nelson Arellano Escudero", "feRyeYcAAAAJ"),
   ("Rodrigo A. Asún", "airlFmQAAAAJ"),
   ("Rodrigo Asún", "airlFmQAAAAJ"),
   ("Camila Moyano Dávila", "Z_5xEkIAAAAJ"),
   ("Claudia Zúñiga", "PrpjOXQAAAAJ"),
   ("Javiera Cienfuegos Illanes", "VZBKOLsAAAAJ"),
   ("Cristián Bellei", "UeodjIAAAAAJ"),
   ("Cristian Bellei", "UeodjIAAAAAJ"),
   ("Mauro Basaure", "JPWSU2wAAAAJ"),
   ("Carolina Stefoni", "p86gQo0AAAAJ"),
   ("Silvia Lamadrid Alvarez", "t6B1cxEAAAAJ"),
   ("Silvia Lamadrid", "t6B1cxEAAAAJ"),
   ("Javier Ruiz-Tagle", "os329F8AAAAJ"),
   ("Oscar Landerretche", "W6oI2LsAAAAJ"),
   ("Gonzalo Martner", "7OcQ0PoAAAAJ"),
   ("Eduardo Engel", "PWLh77oAAAAJ"),
   ("Pablo Marshall", "HzOFxjoAAAAJ"),
   ("Pablo Geraldo Bastías", "JrrvH-oAAAAJ"),
   ("Andrea Riedemann", "KnrUWzEAAAAJ"),
   ("Pablo Pérez Ahumada", "I-bh4HoAAAAJ"),
   ("Fernando Atria", "InrV7oEAAAAJ"),
   ("Martín Tironi", "_CTu_voAAAAJ"),
   ("Tomás Ariztía", "FpyJ96kAAAAJ"),
   ("Eugenio Tironi", "8g7eKDcAAAAJ"),
   ("Claudia Sanhueza", "kuProYAAAAAJ"),
   ("Dante Contreras", "BUc-k1MAAAAJ"),
   ("Carlos Huneeus", "Kq4dWnoAAAAJ"),
   ("Juan Pablo Luna", "IgwSc8oAAAAJ"),
   ("Florencia Torche", "HjhELVoAAAAJ"),
   ("Rodrigo Valdés", "vfhPXR4AAAAJ"),
   ("Andrea Repetto", "zmkA7uwAAAAJ"),
   ("Sergio Urzúa", "UGlSd5kAAAAJ"),
   ("Francisco A. Gallego", "l7Q0SrUAAAAJ"),
   ("Francisco Gallego", "l7Q0SrUAAAAJ"),
   ("José De Gregorio", "SJUEA8uk4iYC"),
   ("Claudia Mora", "psDDX5MAAAAJ"),
   ("Juan Carlos Oyanedel", "UsXLvsEAAAAJ"),
   ("Ernesto López-Morales", "5w40_sYAAAAJ"),
   ("Ernesto López Morales", "5w40_sYAAAAJ"),
   ("Luis Garrido-Vergara", "DlO0jXVS4FIC"),
   ("Luis Garrido Vergara", "DlO0jXVS4FIC"),
   ("José Weinstein", "XrZEaYcAAAAJ"),
   ("Gonzalo Muñoz Stuardo", "rC7E0W8AAAAJ"),
   ("Sergio Martinic", "P3vUyD8AAAAJ"),
   ("Osvaldo Sunkel", "GEuJF0cAAAAJ"),
   ("Arturo Arriagada", "TzPYdWsAAAAJ"),
   ("Pedro Güell", "KaRIsccAAAAJ"),
   ("Matías Bargsted", "0oYjLYEAAAAJ"),
   ("Alfredo Joignant", "C6i7344AAAAJ"),
   ("Emmanuelle Barozet", "NLiNCD0AAAAJ"),
   ("Émmanuelle Barozet", "NLiNCD0AAAAJ"),
   ("Sergio Toro", "F7Dguu4AAAAJ"),
   ("Ricardo Gamboa", "nOBjxWUAAAAJ"),
   ("Ricardo Gamboa Valenzuela", "nOBjxWUAAAAJ"),
   ("Claudio Fuentes", "ckIjzZQAAAAJ"),
   ("Magdalena Saldaña", "UknWOrEAAAAJ"),
   ("Catherine Reyes-Housholder", "8WfwsloAAAAJ"),
   ("Octavio Avendaño", "gj1MwGwAAAAJ"),
   ("Lisa Zanotti", "JD_X4KYAAAAJ"),
   ("Carla Fardella", "h9ECWD4AAAAJ"),
   ("Manuel Canales Cerón", "VUBBRpoAAAAJ"),
   ("Manuel Canales", "VUBBRpoAAAAJ"),
   ("F. Daniel Hidalgo", "r-UN7tMAAAAJ"),
   ("Marcelo Arnold-Cathalifaud", "0eZSQEkAAAAJ"),
   ("Marcelo Arnold", "0eZSQEkAAAAJ"),
   ("Rodrigo Cordero", "22ynv5cAAAAJ"),
   ("Jorge Atria Curi", "6lYgX_0AAAAJ"),
   ("Jorge Atria", "6lYgX_0AAAAJ"),
   ("Antonio Elizalde", "egxxLU0AAAAJ"),
   ("Matias López", "_y8jWtcAAAAJ"),
   ("Verónica Gubbins Foxley", "tW__CQYAAAAJ"),
   ("Verónica Gubbins", "tW__CQYAAAAJ"),
   ("Felipe Torres Torres", "8bXFNDIAAAAJ"),
   ("Felipe Torres", "8bXFNDIAAAAJ"),
   ("Francisca Dussaillant", "6XHFLYQAAAAJ"),
   ("Óscar Mac-Clure", "XmHLcYkAAAAJ"),
   ("Oscar Mac-Clure", "XmHLcYkAAAAJ"),
   ("Carlos Calvo Muñoz", "Sc7FKWEAAAAJ"),
   ("Carlos Calvo", "Sc7FKWEAAAAJ"),
   ("Álvaro Besoaín Saldaña", "zt_Pe8wAAAAJ"),
   ("Alvaro Besoain Saldaña", "zt_Pe8wAAAAJ"),
   ("Facundo Sepúlveda", "8yeHoG8AAAAJ"),
   ("Facundo Sepulveda", "8yeHoG8AAAAJ"),
   ("César A. Cisneros Puebla", "k7EIK5UAAAAJ"),
   ("César Cisneros Puebla", "k7EIK5UAAAAJ"),
   ("Daina Bellido de Luna", "LqFe6MQAAAAJ"),
   ("Juan Pablo Venables", "OQM9rGQAAAAJ"),
   ("Juan Pablo Paredes P", "keKcSfsAAAAJ"),
   ("Juan Pablo Paredes", "keKcSfsAAAAJ"),
   ("Juan Pablo Pinilla", "HsctFRkAAAAJ"),
   ("Kenneth Bunker", "kFHaW6wAAAAJ"),
   ("Álvaro V. Ramírez-Alujas", "MMCj-VQAAAAJ"),
   ("Álvaro Ramírez-Alujas", "MMCj-VQAAAAJ"),
   ("Daniel Miranda", "vdF2kZcAAAAJ"),
   ("Rodrigo Mardones", "5cAowpkAAAAJ")]

/-- A row of the OpenAlex CSV after `procesar_ranking.cargar_datos`
normalised the column names (`cited_by_count` to `citas`, `pais` to
`pais_institucion`). -/
structure Fila where
  openalex_id : String
  orcid : String
  nombre : String
  institucion : String
  pais_institucion : String
  h_index : Int
  i10_index : Int
  citas : Int
  trabajos : Int
  campo_principal : String
  topics : String
deriving DecidableEq, Repr

/-- `procesar_ranking.limpiar_datos`: the four sequential exclusion
filters (denylisted name, denylisted affiliation, denylisted field,
country other than `CL`). -/
def limpiarDatos (df : List Fila) : List Fila :=
  let d1 := df.filter fun r => !EXCLUIR_NOMBRES.contains r.nombre
  let d2 := d1.filter fun r => !EXCLUIR_AFILIACIONES.contains r.institucion
  let d3 := d2.filter fun r => !CAMPOS_EXCLUIR.contains r.campo_principal
  let d4 := d3.filter fun r => r.pais_institucion == "CL"
  d4

/-- `procesar_ranking.filtrar_por_hindex`: keep rows with
`h_index >= minimo`. -/
def filtrarPorHindex (minimo : Int) (df : List Fila) : List Fila :=
  df.filter fun r => minimo ≤ r.h_index

/-- Python's substring test `x in topics`. -/
def enTexto (x texto : String) : Bool :=
  decide (x.data <:+: texto.data)

/-- Python's `str.lower()` (character-wise; the keyword tests of the
classifier only involve ASCII letters, where `Char.toLower` and Python
agree). -/
def aMinusculas (s : String) : String :=
  ⟨s.data.map Char.toLower⟩

/-- `procesar_ranking.clasificar_disciplina`: ordered first-match
keyword rules over the lower-cased topics text and the raw field
label. -/
def clasificarDisciplina (r : Fila) : String :=
  let campo := r.campo_principal
  let topics := aMinusculas r.topics
  if ["political", "electoral", "democracy", "populism",
      "governance", "international relations"].any (enTexto · topics) then
    "Ciencia Política"
  else if ["sociolog", "social stratification", "inequality",
      "social movement", "cultural"].any (enTexto · topics) then
    "Sociología"
  else if campo == "Economics, Econometrics and Finance"
      || ["economic", "labor market", "fiscal", "trade"].any (enTexto · topics) then
    "Economía"
  else if campo == "Psychology" || enTexto "psycholog" topics then
    "Psicología"
  else if ["education", "school", "teacher"].any (enTexto · topics) then
    "Educación"
  else if ["media", "communication", "journalism"].any (enTexto · topics) then
    "Comunicación"
  else if campo == "Social Sciences" then
    "Ciencias Sociales"
  else if campo == "Arts and Humanities" then
    "Humanidades"
  else if enTexto "Business" campo then
    "Administración"
  else
    "Ciencias Sociales"

/-- The hyphen normalisation inside `procesar_ranking.buscar_scholar_id`:
`nombre.replace("‐", "-").replace("–", "-")`.  Both patterns are single
characters, so the two `str.replace` calls equal this character map. -/
def normalizarNombre (s : String) : String :=
  ⟨s.data.map fun c => if c = '‐' then '-' else if c = '–' then '-' else c⟩

/-- `procesar_ranking.buscar_scholar_id`: exact dictionary lookup,
then lookup of the hyphen-normalised name, else the empty string.  The
`afiliacion` argument is accepted and unused, as in the source. -/
def buscarScholarId (nombre : String) (afiliacion : String) : String :=
  match SCHOLAR_IDS_CONOCIDOS.lookup nombre with
  | some sid => sid
  | none =>
    match SCHOLAR_IDS_CONOCIDOS.lookup (normalizarNombre nombre) with
    | some sid => sid
    | none => ""

/-- A `Fila` with the `disciplina` column added by
`agregar_disciplina`. -/
structure FilaD extends Fila where
  disciplina : String
deriving DecidableEq, Repr

/-- A `FilaD` with the `scholar_id` column added by
`agregar_scholar_ids`. -/
structure FilaS extends FilaD where
  scholar_id : String
deriving DecidableEq, Repr

/-- A `FilaS` with the 1-based `ranking` column of
`procesar_ranking.main`. -/
structure FilaR extends FilaS where
  ranking : ℕ
deriving DecidableEq, Repr

/-- `procesar_ranking.agregar_disciplina`. -/
def agregarDisciplina (df : List Fila) : List FilaD :=
  df.map fun r => { toFila := r, disciplina := clasificarDisciplina r }

/-- `procesar_ranking.agregar_scholar_ids`. -/
def agregarScholarIds (df : List FilaD) : List FilaS :=
  df.map fun r => { toFilaD := r, scholar_id := buscarScholarId r.nombre r.institucion }

/-- The ascending single-key order underlying the final sort of
`procesar_ranking.main`. -/
def rHasc (x y : FilaS) : Prop :=
  x.h_index ≤ y.h_index

instance : DecidableRel rHasc := fun x y => by
  unfold rHasc; infer_instance

instance : IsTotal FilaS rHasc :=
  ⟨fun x y => le_total x.h_index y.h_index⟩

instance : IsTrans FilaS rHasc :=
  ⟨fun _ _ _ h1 h2 => le_trans h1 h2⟩

/-- The final sort of `procesar_ranking.main` (line 580):
`df.sort_values("h_index", ascending=False)`.  Only the single key
`h_index` is consulted — total citations are never part of the key —
and pandas implements `ascending=False` by reversing the ascending
argsort of the column, so fully tied rows come out in reversed input
order (numpy's default quicksort runs a stable insertion sort on the
small partitions arising here).  Embedded as the stable ascending sort
followed by the reversal. -/
def sortHindexDesc (l : List FilaS) : List FilaS :=
  (List.insertionSort rHasc l).reverse

/-- `df["ranking"] = range(1, len(df) + 1)`. -/
def conRanking : ℕ → List FilaS → List FilaR
  | _, [] => []
  | n, a :: rest => { toFilaS := a, ranking := n } :: conRanking (n + 1) rest

/-- The `procesar_ranking.main` pipeline from the loaded dataframe to
the final ranked dataframe: clean, threshold-filter, classify, attach
scholar ids, sort by h-index descending, attach ranking positions. -/
def pipelineProcesar (df : List Fila) : List FilaR :=
  conRanking 1
    (sortHindexDesc
      (agregarScholarIds
        (agregarDisciplina
          (filtrarPorHindex H_INDEX_MINIMO (limpiarDatos df)))))

/-- One topic of an OpenAlex author payload (only the display names of
its domain and field are read). -/
structure OATopic where
  domain_display : String
  field_display : String
deriving DecidableEq, Repr

/-- One `x_concepts` entry of an OpenAlex author payload. -/
structure OAConcept where
  display_name : String
  score : ℚ
deriving DecidableEq, Repr

/-- One institution of an OpenAlex author payload. -/
structure OAInst where
  country_code : String
  display_name : String
deriving DecidableEq, Repr

/-- The parts of a raw OpenAlex author payload read by
`extraer_openalex.get_authors_chile`. -/
structure OARaw where
  id : String
  display_name : String
  orcid : String
  topics : List OATopic
  x_concepts : List OAConcept
  last_known_institutions : List OAInst
  h_index : Int
  i10_index : Int
  two_yr_mean_citedness : ℚ
  cited_by_count : Int
  works_count : Int
deriving DecidableEq, Repr

/-- `extraer_openalex.DOMINIOS_CS`. -/
def DOMINIOS_CS : List String := ["Social Sciences"]

/-- `extraer_openalex.CAMPOS_CS`. -/
def CAMPOS_CS : List String :=
  ["Sociology", "Political Science", "Economics", "Psychology",
   "Education", "Law", "Business", "Geography", "Anthropology",
   "Communication", "Social Work", "Public Policy", "Demography",
   "Gender Studies", "Urban Studies", "Development Studies",
   "Public Administration", "Social Psychology", "Criminology",
   "Political Economy", "International Relations"]

/-- The topic scan of `extraer_openalex.es_ciencias_sociales`: first
topic whose domain is a social-science domain or whose field is a
social-science field; returns that topic's field. -/
def buscaTopicCS : List OATopic → Option String
  | [] => none
  | t :: ts =>
    if DOMINIOS_CS.contains t.domain_display then some t.field_display
    else if CAMPOS_CS.contains t.field_display then some t.field_display
    else buscaTopicCS ts

/-- The `x_concepts` backup scan of `es_ciencias_sociales`: first
concept with score above 40 whose name is a social-science field. -/
def buscaConceptCS : List OAConcept → Option String
  | [] => none
  | c :: cs =>
    if 40 < c.score ∧ CAMPOS_CS.contains c.display_name then some c.display_name
    else buscaConceptCS cs

/-- `extraer_openalex.es_ciencias_sociales`: social-science test over
the first 5 topics, falling back to the first 10 `x_concepts`. -/
def esCienciasSociales (a : OARaw) : Bool × String :=
  match buscaTopicCS (a.topics.take 5) with
  | some campo => (true, campo)
  | none =>
    match buscaConceptCS (a.x_concepts.take 10) with
    | some campo => (true, campo)
    | none => (false, "")

/-- The institution scan inside the page loop: display name of the
first institution whose country code is `CL`, else the empty string. -/
def primeraInstCL : List OAInst → String
  | [] => ""
  | i :: rest => if i.country_code == "CL" then i.display_name else primeraInstCL rest

/-- `(author.get("orcid") or "").replace("https://orcid.org/", "")`:
on ORCID values the pattern occurs only as a prefix, so the `replace`
strips it. -/
def quitaOrcidUrl (s : String) : String :=
  if "https://orcid.org/".data.isPrefixOf s.data then
    ⟨s.data.drop "https://orcid.org/".data.length⟩
  else s

/-- One row accumulated by `get_authors_chile` (the `author_data`
dictionary of lines 116-128). -/
structure DatoAutor where
  openalex_id : String
  nombre : String
  orcid : String
  h_index : Int
  i10_index : Int
  cited_by_count : Int
  works_count : Int
  two_yr_mean_citedness : ℚ
  institucion : String
  campo_principal : String
  pais : String
deriving DecidableEq, Repr

/-- The per-page result processing of `get_authors_chile` (lines
97-130): keep social-science authors with a Chilean institution and
extract the `author_data` row for each. -/
def procesaAutores (results : List OARaw) : List DatoAutor :=
  results.filterMap fun a =>
    match esCienciasSociales a with
    | (false, _) => none
    | (true, campo) =>
      let instName := primeraInstCL a.last_known_institutions
      if instName == "" then none
      else some
        { openalex_id := a.id
          nombre := a.display_name
          orcid := quitaOrcidUrl a.orcid
          h_index := a.h_index
          i10_index := a.i10_index
          cited_by_count := a.cited_by_count
          works_count := a.works_count
          two_yr_mean_citedness := round2 a.two_yr_mean_citedness
          institucion := instName
          campo_principal := campo
          pais := "CL" }

/-- One upstream response observed by the page loop: a transport/HTTP
error (`requests.RequestException`, covering `raise_for_status`), or a
successful page with its `results` array and `meta.next_cursor`. -/
inductive Resp where
  | err : Resp
  | ok : List OARaw → Option String → Resp
deriving DecidableEq, Repr

/-- Python truthiness of the cursor value (`while cursor:`): `None` and
the empty string are falsy. -/
def cursorTruthy : Option String → Bool
  | none => false
  | some s => !(s == "")

/-- The mutable state of the `get_authors_chile` page loop, plus a
count of requests issued so far. -/
structure LoopSt where
  cursor : Option String
  authors : List DatoAutor
  page : ℕ
  reqs : ℕ
deriving DecidableEq, Repr

/-- The `while cursor:` loop of `get_authors_chile`, run against an
oracle giving the outcome of the n-th request and bounded by `fuel`
iterations.  The returned flag is `true` when the loop exited (falsy
cursor, or a page with empty `results`), `false` when the fuel ran out
with the loop still active.  On an error the handler sleeps and
`continue`s: the state is unchanged except for the issued request; on a
success the rows are appended, the cursor is replaced by
`meta.next_cursor` and the page counter advances. -/
def runLoop (oracle : ℕ → Resp) : ℕ → LoopSt → LoopSt × Bool
  | 0, st => (st, false)
  | fuel + 1, st =>
    if cursorTruthy st.cursor then
      match oracle st.reqs with
      | .err => runLoop oracle fuel { st with reqs := st.reqs + 1 }
      | .ok results nextCur =>
        if results.isEmpty then ({ st with reqs := st.reqs + 1 }, true)
        else runLoop oracle fuel
          { cursor := nextCur
            authors := st.authors ++ procesaAutores results
            page := st.page + 1
            reqs := st.reqs + 1 }
    else (st, true)

/-- The initial loop state: `cursor = "*"`, nothing accumulated. -/
def initSt : LoopSt :=
  { cursor := some "*", authors := [], page := 0, reqs := 0 }

/-- Python truthiness of a credential (`if not self.api_key`): absent
or empty. -/
def keyTruthy : Option String → Bool
  | none => false
  | some s => !(s == "")

/-- One outcome of the single HTTP call inside
`SerpAPIScholarScraper._make_request` /  `get_author_by_id`: a 200
response whose body parses to a normalized author record, a 200
response whose body fails to parse (the `except` of lines 127-129), a
non-200 status, or a raised exception. -/
inductive SerpTransport where
  | httpOk : Author → SerpTransport
  | unparseable : SerpTransport
  | httpErr : ℕ → SerpTransport
  | exc : SerpTransport
deriving DecidableEq, Repr

/-- `SerpAPIScholarScraper._make_request` followed by the parsing of
`get_author_by_id`, also counting the HTTP requests issued: with a
falsy key it logs and returns `None` without any request; otherwise one
request is issued and every failure mode also yields `None`. -/
def getAuthorById (api_key : Option String) (transport : SerpTransport) :
    Option Author × ℕ :=
  if keyTruthy api_key then
    match transport with
    | .httpOk body => (some body, 1)
    | .unparseable => (none, 1)
    | .httpErr _ => (none, 1)
    | .exc => (none, 1)
  else (none, 0)

/-- `SerpAPIScholarScraper.get_authors_from_ids`: one
`get_author_by_id` call per id (here: per transport outcome), keeping
the successful records, with the total request count. -/
def getAuthorsFromIds (api_key : Option String)
    (transports : List SerpTransport) : List Author × ℕ :=
  transports.foldl
    (fun acc t =>
      match getAuthorById api_key t with
      | (some a, n) => (acc.1 ++ [a], acc.2 + n)
      | (none, n) => (acc.1, acc.2 + n))
    ([], 0)

/-- `build_ranking.fetch_with_serpapi`: read the credential from the
environment; a falsy credential logs an actionable message and returns
the empty list before any scraper call; otherwise the scraper is built
with that key and the ids are fetched. -/
def fetchWithSerpapi (env_key : Option String)
    (transports : List SerpTransport) : List Author × ℕ :=
  if keyTruthy env_key then getAuthorsFromIds env_key transports
  else ([], 0)

/-- Follows the spec's words for the cross-source merge key
("researcher display name, normalized (diacritic-insensitive,
hyphen-variant-insensitive)"): fold the Spanish diacritics of a name to
base letters.  This is a spec-side definition, used only to state
diacritic-insensitivity; the lookup code has no counterpart for it. -/
def specDiacriticFold (s : String) : String :=
  ⟨s.data.map fun c =>
    if c = 'á' then 'a' else if c = 'é' then 'e' else if c = 'í' then 'i'
    else if c = 'ó' then 'o' else if c = 'ú' then 'u' else if c = 'ü' then 'u'
    else if c = 'ñ' then 'n' else if c = 'Á' then 'A' else if c = 'É' then 'E'
    else if c = 'Í' then 'I' else if c = 'Ó' then 'O' else if c = 'Ú' then 'U'
    else if c = 'Ü' then 'U' else if c = 'Ñ' then 'N' else c⟩

/-- The three-record batch of the spec's ranking scenario: h-index
10, 10, 8 with citations 500, 300, 900. -/
def ejemploC3 : List Author :=
  [{ scholar_id := "idA", name := "A", affiliation := some "Universidad X",
     email_domain := none, interests := [], h_index := 10, h_index_5y := 0,
     i10_index := 0, i10_index_5y := 0, citations := 500, citations_5y := 0 },
   { scholar_id := "idB", name := "B", affiliation := some "Universidad Y",
     email_domain := none, interests := [], h_index := 10, h_index_5y := 0,
     i10_index := 0, i10_index_5y := 0, citations := 300, citations_5y := 0 },
   { scholar_id := "idC", name := "C", affiliation := some "Universidad Z",
     email_domain := none, interests := [], h_index := 8, h_index_5y := 0,
     i10_index := 0, i10_index_5y := 0, citations := 900, citations_5y := 0 }]

/-- A concrete author used to instantiate theorems about the scoring
functions. -/
def aW : Author :=
  { scholar_id := "w", name := "W", affiliation := some "Universidad W",
    email_domain := some "uw.cl", interests := ["x"], h_index := 3, h_index_5y := 2,
    i10_index := 1, i10_index_5y := 0, citations := 10, citations_5y := 5 }

/-- Two scholar records sharing a `scholar_id`, with the spec scenario's
numbers: first encountered has citations 80 / h-index 12. -/
def aCit80 : Author :=
  { scholar_id := "dup1", name := "Dup80", affiliation := none,
    email_domain := none, interests := [], h_index := 12, h_index_5y := 0,
    i10_index := 0, i10_index_5y := 0, citations := 80, citations_5y := 0 }

/-- The later-encountered duplicate of `aCit80`: citations 100 /
h-index 10. -/
def aCit100 : Author :=
  { scholar_id := "dup1", name := "Dup100", affiliation := none,
    email_domain := none, interests := [], h_index := 10, h_index_5y := 0,
    i10_index := 0, i10_index_5y := 0, citations := 100, citations_5y := 0 }

/-- An OpenAlex record with citations 100 / h-index 10 (the spec
scenario's winner). -/
def oaCit100 : OAuthor :=
  { openalex_id := "A5001", orcid := "", nombre := "R. Cien",
    institucion := "U Cien", pais_institucion := "CL", ror := "",
    h_index := 10, i10_index := 4, citas := 100, trabajos := 20,
    campo_principal := "Sociology", dominio := "Social Sciences",
    topics := "", works_api_url := "" }

/-- The same-identifier OpenAlex record with citations 80 /
h-index 12. -/
def oaCit80 : OAuthor :=
  { openalex_id := "A5001", orcid := "", nombre := "R. Ochenta",
    institucion := "U Ochenta", pais_institucion := "CL", ror := "",
    h_index := 12, i10_index := 9, citas := 80, trabajos := 30,
    campo_principal := "Sociology", dominio := "Social Sciences",
    topics := "", works_api_url := "" }

/-- An OpenAlex record for the tied-citations case (citas 50). -/
def oaTie1 : OAuthor :=
  { openalex_id := "A777", orcid := "", nombre := "Primero",
    institucion := "U Uno", pais_institucion := "CL", ror := "",
    h_index := 7, i10_index := 2, citas := 50, trabajos := 12,
    campo_principal := "Economics", dominio := "Social Sciences",
    topics := "", works_api_url := "" }

/-- A later record with the same identifier and the same citation count
as `oaTie1` but different contents. -/
def oaTie2 : OAuthor :=
  { openalex_id := "A777", orcid := "", nombre := "Segundo",
    institucion := "U Dos", pais_institucion := "CL", ror := "",
    h_index := 9, i10_index := 5, citas := 50, trabajos := 18,
    campo_principal := "Sociology", dominio := "Social Sciences",
    topics := "", works_api_url := "" }

/-- A clean Chilean social-science row that survives the whole
`procesar_ranking` pipeline. -/
def fTest : Fila :=
  { openalex_id := "A1", orcid := "", nombre := "Test Person",
    institucion := "Universidad de Chile", pais_institucion := "CL",
    h_index := 5, i10_index := 3, citas := 100, trabajos := 10,
    campo_principal := "Social Sciences",
    topics := "Electoral Systems and Political Participation" }

/-- The ranked row the pipeline produces from `fTest`. -/
def eTest : FilaR :=
  { toFilaS :=
      { toFilaD := { toFila := fTest, disciplina := "Ciencia Política" }
        scholar_id := "" }
    ranking := 1 }

/-- An upstream that fails the first three requests and then serves an
empty page: the code retries the same starting page three times. -/
def oracleTresErrores : ℕ → Resp :=
  fun n => if n < 3 then Resp.err else Resp.ok [] none

/-- The spec ranking scenario as OpenAlex-pipeline rows: h-index 10,
citations 500. -/
def fA : Fila :=
  { openalex_id := "OA-A", orcid := "", nombre := "A",
    institucion := "Universidad de Chile", pais_institucion := "CL",
    h_index := 10, i10_index := 0, citas := 500, trabajos := 0,
    campo_principal := "Social Sciences", topics := "" }

/-- Scenario row with h-index 10, citations 300. -/
def fB : Fila :=
  { openalex_id := "OA-B", orcid := "", nombre := "B",
    institucion := "Universidad de Chile", pais_institucion := "CL",
    h_index := 10, i10_index := 0, citas := 300, trabajos := 0,
    campo_principal := "Social Sciences", topics := "" }

/-- Scenario row with h-index 8, citations 900. -/
def fC : Fila :=
  { openalex_id := "OA-C", orcid := "", nombre := "C",
    institucion := "Universidad de Chile", pais_institucion := "CL",
    h_index := 8, i10_index := 0, citas := 900, trabajos := 0,
    campo_principal := "Social Sciences", topics := "" }

/-- A row for the tie pair fed to the final openalex-variant sort. -/
def g1 : FilaS :=
  { toFilaD :=
      { toFila :=
          { openalex_id := "OA-G1", orcid := "", nombre := "G1",
            institucion := "U G", pais_institucion := "CL",
            h_index := 6, i10_index := 0, citas := 40, trabajos := 0,
            campo_principal := "Social Sciences", topics := "" }
        disciplina := "Ciencias Sociales" }
    scholar_id := "" }

/-- A second row fully tied with `g1` (same h-index and citations) but
distinct contents. -/
def g2 : FilaS :=
  { toFilaD :=
      { toFila :=
          { openalex_id := "OA-G2", orcid := "", nombre := "G2",
            institucion := "U G", pais_institucion := "CL",
            h_index := 6, i10_index := 0, citas := 40, trabajos := 0,
            campo_principal := "Social Sciences", topics := "" }
        disciplina := "Ciencias Sociales" }
    scholar_id := "" }

/-- The seed of a `foldl max` is below the result. -/
theorem le_foldl_max (l : List ℚ) : ∀ a : ℚ, a ≤ l.foldl max a := by
  induction l with
  | nil => intro a; simp
  | cons b t ih =>
    intro a
    rw [List.foldl_cons]
    exact le_trans (le_max_left a b) (ih (max a b))

/-- Every member of a list is below its `foldl max`. -/
theorem mem_le_foldl_max (l : List ℚ) : ∀ (a x : ℚ), x ∈ l → x ≤ l.foldl max a := by
  induction l with
  | nil => intro _ x hx; cases hx
  | cons b t ih =>
    intro a x hx
    rw [List.foldl_cons]
    rcases List.mem_cons.mp hx with rfl | hx
    · exact le_trans (le_max_right a x) (le_foldl_max t _)
    · exact ih _ x hx

/-- The seed of a `foldl min` is above the result. -/
theorem foldl_min_le (l : List ℚ) : ∀ a : ℚ, l.foldl min a ≤ a := by
  induction l with
  | nil => intro a; simp
  | cons b t ih =>
    intro a
    rw [List.foldl_cons]
    exact le_trans (ih (min a b)) (min_le_left a b)

/-- Every member of a list is above its `foldl min`. -/
theorem foldl_min_le_mem (l : List ℚ) : ∀ (a x : ℚ), x ∈ l → l.foldl min a ≤ x := by
  induction l with
  | nil => intro _ x hx; cases hx
  | cons b t ih =>
    intro a x hx
    rw [List.foldl_cons]
    rcases List.mem_cons.mp hx with rfl | hx
    · exact le_trans (foldl_min_le t _) (min_le_right a x)
    · exact ih _ x hx

/-- Every member of a column is below the column maximum. -/
theorem le_maxQ {col : List ℚ} {x : ℚ} (hx : x ∈ col) : x ≤ maxQ col := by
  cases col with
  | nil => cases hx
  | cons b t =>
    rcases List.mem_cons.mp hx with rfl | hx
    · exact le_foldl_max t x
    · exact mem_le_foldl_max t b x hx

/-- Every member of a column is above the column minimum. -/
theorem minQ_le {col : List ℚ} {x : ℚ} (hx : x ∈ col) : minQ col ≤ x := by
  cases col with
  | nil => cases hx
  | cons b t =>
    rcases List.mem_cons.mp hx with rfl | hx
    · exact foldl_min_le t x
    · exact foldl_min_le_mem t b x hx

/-- A `foldl max` over a constant list returns the seed. -/
theorem foldl_max_const : ∀ (l : List ℚ) (a : ℚ), (∀ x ∈ l, x = a) → l.foldl max a = a := by
  intro l
  induction l with
  | nil => intro a _; rfl
  | cons b t ih =>
    intro a h
    rw [List.foldl_cons, h b (List.mem_cons_self b t), max_self]
    exact ih a fun x hx => h x (List.mem_cons_of_mem b hx)

/-- A `foldl min` over a constant list returns the seed. -/
theorem foldl_min_const : ∀ (l : List ℚ) (a : ℚ), (∀ x ∈ l, x = a) → l.foldl min a = a := by
  intro l
  induction l with
  | nil => intro a _; rfl
  | cons b t ih =>
    intro a h
    rw [List.foldl_cons, h b (List.mem_cons_self b t), min_self]
    exact ih a fun x hx => h x (List.mem_cons_of_mem b hx)

/-- On a constant column both extremes are that constant. -/
theorem maxQ_minQ_const {col : List ℚ} {c : ℚ} (hne : col ≠ [])
    (hall : ∀ x ∈ col, x = c) : maxQ col = c ∧ minQ col = c := by
  cases col with
  | nil => exact absurd rfl hne
  | cons b t =>
    have hb : b = c := hall b (List.mem_cons_self b t)
    have ht : ∀ x ∈ t, x = c := fun x hx => hall x (List.mem_cons_of_mem b hx)
    subst hb
    exact ⟨foldl_max_const t b ht, foldl_min_const t b ht⟩

/-- Min-max normalisation of a column member lies in `[0, 100]`. -/
theorem normQ_bounds {col : List ℚ} {v : ℚ} (hv : v ∈ col) :
    0 ≤ normQ col v ∧ normQ col v ≤ 100 := by
  by_cases h : maxQ col = minQ col
  · rw [normQ, if_pos h]; norm_num
  · rw [normQ, if_neg h]
    have h1 : minQ col ≤ v := minQ_le hv
    have h2 : v ≤ maxQ col := le_maxQ hv
    have h3 : minQ col < maxQ col := lt_of_le_of_ne (le_trans h1 h2) (Ne.symm h)
    constructor
    · exact mul_nonneg (div_nonneg (by linarith) (by linarith)) (by norm_num)
    · have hdiv : (v - minQ col) / (maxQ col - minQ col) ≤ 1 := by
        rw [div_le_one (by linarith)]
        linarith
      calc (v - minQ col) / (maxQ col - minQ col) * 100
          ≤ 1 * 100 := mul_le_mul_of_nonneg_right hdiv (by norm_num)
        _ = 100 := by norm_num

/-- Normalising the shared value of a constant column yields 50. -/
theorem normQ_const {col : List ℚ} {v : ℚ} (hne : col ≠ [])
    (hall : ∀ x ∈ col, x = v) : normQ col v = 50 := by
  obtain ⟨hmax, hmin⟩ := maxQ_minQ_const hne hall
  rw [normQ, if_pos (by rw [hmax, hmin])]

/-- Two-decimal rounding keeps values of `[0, 100]` inside `[0, 100]`. -/
theorem round2_bounds {x : ℚ} (h0 : 0 ≤ x) (h1 : x ≤ 100) :
    0 ≤ round2 x ∧ round2 x ≤ 100 := by
  have hlo : (0 : ℤ) ≤ round (x * 100) := by
    rw [round_eq]
    exact Int.le_floor.mpr (by push_cast; linarith)
  have hhi : round (x * 100) ≤ 10000 := by
    rw [round_eq]
    have hfl : (⌊x * 100 + 1 / 2⌋ : ℤ) < 10001 := Int.floor_lt.mpr (by push_cast; linarith)
    omega
  unfold round2
  constructor
  · positivity
  · rw [div_le_iff₀ (by norm_num : (0 : ℚ) < 100)]
    calc ((round (x * 100) : ℤ) : ℚ) ≤ ((10000 : ℤ) : ℚ) := by exact_mod_cast hhi
      _ = 100 * 100 := by norm_num

/-- Two-decimal rounding fixes 50. -/
theorem round2_fifty : round2 (50 : ℚ) = 50 := by
  norm_num [round2, round_eq]

/-- The impact score of a batch member lies in `[0, 100]`. -/
theorem impactScore_bounds {batch : List Author} {a : Author} (ha : a ∈ batch) :
    0 ≤ impactScore batch a ∧ impactScore batch a ≤ 100 := by
  have h1 : 0 ≤ normQ (batch.map fun b => (b.h_index : ℚ)) (a.h_index : ℚ) ∧
      normQ (batch.map fun b => (b.h_index : ℚ)) (a.h_index : ℚ) ≤ 100 :=
    normQ_bounds (List.mem_map.mpr ⟨a, ha, rfl⟩)
  have h2 : 0 ≤ normQ (batch.map fun b => (b.citations : ℚ)) (a.citations : ℚ) ∧
      normQ (batch.map fun b => (b.citations : ℚ)) (a.citations : ℚ) ≤ 100 :=
    normQ_bounds (List.mem_map.mpr ⟨a, ha, rfl⟩)
  have h3 : 0 ≤ normQ (batch.map fun b => (b.h_index_5y : ℚ)) (a.h_index_5y : ℚ) ∧
      normQ (batch.map fun b => (b.h_index_5y : ℚ)) (a.h_index_5y : ℚ) ≤ 100 :=
    normQ_bounds (List.mem_map.mpr ⟨a, ha, rfl⟩)
  have h4 : 0 ≤ normQ (batch.map fun b => (b.i10_index : ℚ)) (a.i10_index : ℚ) ∧
      normQ (batch.map fun b => (b.i10_index : ℚ)) (a.i10_index : ℚ) ≤ 100 :=
    normQ_bounds (List.mem_map.mpr ⟨a, ha, rfl⟩)
  unfold impactScore
  exact round2_bounds
    (by linarith [h1.1, h2.1, h3.1, h4.1])
    (by linarith [h1.2, h2.2, h3.2, h4.2, h1.1, h2.1, h3.1, h4.1])

/-- When the four metrics are constant over the batch, every batch
member's impact score is exactly 50. -/
theorem impactScore_all_equal {batch : List Author} {a : Author} (ha : a ∈ batch)
    (hall : ∀ b ∈ batch, b.h_index = a.h_index ∧ b.citations = a.citations ∧
      b.h_index_5y = a.h_index_5y ∧ b.i10_index = a.i10_index) :
    impactScore batch a = 50 := by
  have hne : batch ≠ [] := List.ne_nil_of_mem ha
  have col_ne : ∀ f : Author → ℚ, batch.map f ≠ [] := by
    intro f h
    exact hne (List.map_eq_nil_iff.mp h)
  have hh : ∀ x ∈ batch.map fun b => (b.h_index : ℚ), x = (a.h_index : ℚ) := by
    intro x hx
    obtain ⟨b, hb, rfl⟩ := List.mem_map.mp hx
    exact_mod_cast congrArg Int.cast (hall b hb).1
  have hc : ∀ x ∈ batch.map fun b => (b.citations : ℚ), x = (a.citations : ℚ) := by
    intro x hx
    obtain ⟨b, hb, rfl⟩ := List.mem_map.mp hx
    exact_mod_cast congrArg Int.cast (hall b hb).2.1
  have h5 : ∀ x ∈ batch.map fun b => (b.h_index_5y : ℚ), x = (a.h_index_5y : ℚ) := by
    intro x hx
    obtain ⟨b, hb, rfl⟩ := List.mem_map.mp hx
    exact_mod_cast congrArg Int.cast (hall b hb).2.2.1
  have hi : ∀ x ∈ batch.map fun b => (b.i10_index : ℚ), x = (a.i10_index : ℚ) := by
    intro x hx
    obtain ⟨b, hb, rfl⟩ := List.mem_map.mp hx
    exact_mod_cast congrArg Int.cast (hall b hb).2.2.2
  unfold impactScore
  rw [normQ_const (col_ne _) hh, normQ_const (col_ne _) hc,
    normQ_const (col_ne _) h5, normQ_const (col_ne _) hi]
  rw [show (50 : ℚ) * 0.4 + 50 * 0.3 + 50 * 0.2 + 50 * 0.1 = 50 by norm_num]
  exact round2_fifty

/-- C4: for every batch, each member's impact score lies in `[0, 100]`;
and when all records of the batch share identical h-index, citations,
5-year h-index and i10-index values, every member's impact score is
exactly 50 (each constant column normalises to 50 and the weights sum
to 1). -/
theorem impact_score_bounds_and_neutral_fifty (batch : List Author) (a : Author)
    (ha : a ∈ batch) :
    (0 ≤ impactScore batch a ∧ impactScore batch a ≤ 100) ∧
      ((∀ b ∈ batch, b.h_index = a.h_index ∧ b.citations = a.citations ∧
          b.h_index_5y = a.h_index_5y ∧ b.i10_index = a.i10_index) →
        impactScore batch a = 50) :=
  ⟨impactScore_bounds ha, fun hall => impactScore_all_equal ha hall⟩

/-- C4 witness: on the one-record batch `[aW]` the hypotheses hold and
the impact score is exactly 50 (hence inside `[0, 100]`). -/
theorem impact_score_bounds_and_neutral_fifty_witness :
    (0 ≤ impactScore [aW] aW ∧ impactScore [aW] aW ≤ 100) ∧ impactScore [aW] aW = 50 := by
  have h := impact_score_bounds_and_neutral_fifty [aW] aW (by decide)
  exact ⟨h.1, h.2 (by decide)⟩

/-- C5: the consistency score is 20 times the number of satisfied
buckets (affiliation longer than 5, non-empty interests, contact domain
longer than 3, citation/h-index coherence with both positive, positive
5-year h-index), hence always one of 0, 20, 40, 60, 80, 100. -/
theorem consistency_index_bucket_sum (a : Author) :
    consistencyIndex a =
      20 * ([tieneAfiliacion a, tieneIntereses a, tieneEmail a,
             coherenciaCitas a, actividadReciente a].count true) ∧
    consistencyIndex a ∈ ([0, 20, 40, 60, 80, 100] : List ℕ) := by
  unfold consistencyIndex
  cases h1 : tieneAfiliacion a <;> cases h2 : tieneIntereses a <;>
    cases h3 : tieneEmail a <;> cases h4 : coherenciaCitas a <;>
    cases h5 : actividadReciente a <;> decide

/-- Rows of the rank-attached list come from the sorted list. -/
theorem mem_conRango {x : Ranked} :
    ∀ (n : ℕ) (l : List Scored), x ∈ conRango n l → x.toScored ∈ l := by
  intro n l
  induction l generalizing n with
  | nil => intro h; cases h
  | cons b t ih =>
    intro h
    simp only [conRango] at h
    rcases List.mem_cons.mp h with rfl | h
    · exact List.mem_cons_self b t
    · exact List.mem_cons_of_mem b (ih (n + 1) h)

/-- Attaching ranks preserves any pairwise relation on the underlying
scored rows. -/
theorem pairwise_conRango {R : Scored → Scored → Prop} :
    ∀ (n : ℕ) (l : List Scored), l.Pairwise R →
      (conRango n l).Pairwise fun x y => R x.toScored y.toScored := by
  intro n l
  induction l generalizing n with
  | nil => intro _; exact List.Pairwise.nil
  | cons b t ih =>
    intro h
    rw [List.pairwise_cons] at h
    exact List.Pairwise.cons (fun y hy => h.1 _ (mem_conRango (n + 1) t hy)) (ih (n + 1) h.2)

/-- The rank column of the rank-attached list is consecutive from the
starting position. -/
theorem map_rank_conRango :
    ∀ (n : ℕ) (l : List Scored),
      (conRango n l).map (fun r => r.rank) = List.range' n l.length := by
  intro n l
  induction l generalizing n with
  | nil => simp [conRango]
  | cons b t ih => simp [conRango, ih, List.range'_succ]

/-- Attaching ranks preserves length. -/
theorem length_conRango :
    ∀ (n : ℕ) (l : List Scored), (conRango n l).length = l.length := by
  intro n l
  induction l generalizing n with
  | nil => rfl
  | cons b t ih => simp [conRango, ih]

/-- Rows of the ranking-attached list come from the sorted list. -/
theorem mem_conRanking {x : FilaR} :
    ∀ (n : ℕ) (l : List FilaS), x ∈ conRanking n l → x.toFilaS ∈ l := by
  intro n l
  induction l generalizing n with
  | nil => intro h; cases h
  | cons b t ih =>
    intro h
    simp only [conRanking] at h
    rcases List.mem_cons.mp h with rfl | h
    · exact List.mem_cons_self b t
    · exact List.mem_cons_of_mem b (ih (n + 1) h)

/-- Attaching ranking positions preserves any pairwise relation on the
underlying rows. -/
theorem pairwise_conRanking {R : FilaS → FilaS → Prop} :
    ∀ (n : ℕ) (l : List FilaS), l.Pairwise R →
      (conRanking n l).Pairwise fun x y => R x.toFilaS y.toFilaS := by
  intro n l
  induction l generalizing n with
  | nil => intro _; exact List.Pairwise.nil
  | cons b t ih =>
    intro h
    rw [List.pairwise_cons] at h
    exact List.Pairwise.cons (fun y hy => h.1 _ (mem_conRanking (n + 1) t hy)) (ih (n + 1) h.2)

/-- The ranking column is consecutive from the starting position. -/
theorem map_ranking_conRanking :
    ∀ (n : ℕ) (l : List FilaS),
      (conRanking n l).map (fun r => r.ranking) = List.range' n l.length := by
  intro n l
  induction l generalizing n with
  | nil => simp [conRanking]
  | cons b t ih => simp [conRanking, ih, List.range'_succ]

/-- Attaching ranking positions preserves length. -/
theorem length_conRanking :
    ∀ (n : ℕ) (l : List FilaS), (conRanking n l).length = l.length := by
  intro n l
  induction l generalizing n with
  | nil => rfl
  | cons b t ih => simp [conRanking, ih]

/-- C3 counterexample: the openalex-variant pipeline
(`procesar_ranking.main`, line 580) sorts on `h_index` alone, so the
claimed citations-descending tie-break fails there — for the spec
scenario input ordered 10/500, 10/300, 8/900, the output ranks the
300-citation row first among the h-index-10 ties, not the 500-citation
row. -/
theorem procesar_ranking_ignores_citations_tiebreak :
    (pipelineProcesar [fA, fB, fC]).map
        (fun r => (r.nombre, r.h_index, r.citas, r.ranking)) =
      [("B", 10, 300, 1), ("A", 10, 500, 2), ("C", 8, 900, 3)] ∧
    (pipelineProcesar [fA, fB, fC]).map (fun r => r.citas) ≠ [500, 300, 900] := by decide

/-- C3 amended: in the scholar pipeline,
`MetricsCalculator.generate_ranking` orders by h-index descending with
total citations descending as tie-break and assigns 1-based sequential
ranks, and the spec's three-record scenario comes out as
`[h=10/c=500, h=10/c=300, h=8/c=900]` with ranks 1, 2, 3; the
openalex-variant pipeline instead sorts on h-index alone — its output
is h-index-descending with 1-based sequential ranks, but ties are not
broken by citations (the same scenario ranks the 300-citation row
first). -/
theorem ranking_sorted_and_ranked_by_path (authors : List Author) :
    (List.Sorted
      (fun x y : Ranked =>
        y.h_index < x.h_index ∨ (x.h_index = y.h_index ∧ y.citations ≤ x.citations))
      (generateRanking authors) ∧
    (generateRanking authors).map (fun r => r.rank) =
      List.range' 1 (generateRanking authors).length ∧
    (generateRanking ejemploC3).map (fun r => (r.name, r.h_index, r.citations, r.rank)) =
      [("A", 10, 500, 1), ("B", 10, 300, 2), ("C", 8, 900, 3)]) ∧
    ((∀ df : List Fila,
      List.Sorted (fun x y : FilaR => y.h_index ≤ x.h_index) (pipelineProcesar df)) ∧
    (∀ df : List Fila,
      (pipelineProcesar df).map (fun r => r.ranking) =
        List.range' 1 (pipelineProcesar df).length)) := by
  refine ⟨⟨?_, ?_, by decide⟩, ?_, ?_⟩
  · exact pairwise_conRango 1 _ (List.sorted_insertionSort rRank (scoredData authors))
  · rw [generateRanking, map_rank_conRango, length_conRango]
  · intro df
    unfold pipelineProcesar sortHindexDesc
    have hs : (List.insertionSort rHasc
        (agregarScholarIds (agregarDisciplina
          (filtrarPorHindex H_INDEX_MINIMO (limpiarDatos df))))).reverse.Pairwise
        (fun a b : FilaS => b.h_index ≤ a.h_index) := by
      rw [List.pairwise_reverse]
      exact List.sorted_insertionSort rHasc _
    exact pairwise_conRanking 1 _ hs
  · intro df
    unfold pipelineProcesar
    rw [map_ranking_conRanking, length_conRanking]

/-- Insertion never crosses an element the inserted row is allowed to
precede: filtering away the inserted row recovers the old filtrate. -/
theorem filter_orderedInsert_neg {p : Scored → Bool} {a : Scored} (hp : p a = false) :
    ∀ l : List Scored, (List.orderedInsert rRank a l).filter p = l.filter p := by
  intro l
  induction l with
  | nil => simp [List.orderedInsert, hp]
  | cons b t ih =>
    simp only [List.orderedInsert]
    split_ifs with hr
    · simp [List.filter_cons, hp]
    · simp [List.filter_cons, ih]

/-- Inserting a row that precedes every other selected row puts it in
front of the selected rows. -/
theorem filter_orderedInsert_pos {p : Scored → Bool} {a : Scored} (hp : p a = true)
    (htie : ∀ b, p b = true → rRank a b) :
    ∀ l : List Scored, (List.orderedInsert rRank a l).filter p = a :: l.filter p := by
  intro l
  induction l with
  | nil => simp [List.orderedInsert, hp]
  | cons b t ih =>
    simp only [List.orderedInsert]
    split_ifs with hr
    · simp [List.filter_cons, hp]
    · have hb : p b = false := by
        cases hpb : p b
        · rfl
        · exact absurd (htie b hpb) hr
      simp [List.filter_cons, hb, ih]

/-- The stable sort leaves the subsequence of any mutually-tied class
of rows untouched. -/
theorem filter_insertionSort_stable {p : Scored → Bool}
    (hcl : ∀ a b, p a = true → p b = true → rRank a b) :
    ∀ l : List Scored, (List.insertionSort rRank l).filter p = l.filter p := by
  intro l
  induction l with
  | nil => rfl
  | cons b t ih =>
    simp only [List.insertionSort]
    cases hb : p b
    · rw [filter_orderedInsert_neg hb, ih]
      simp [List.filter_cons, hb]
    · rw [filter_orderedInsert_pos hb (fun c hc => hcl b c hb hc), ih]
      simp [List.filter_cons, hb]

/-- C7 counterexample: the openalex-variant final sort
(`procesar_ranking.main`, line 580) reverses fully tied rows — two
distinct rows with equal h-index and equal citations leave the sort in
the opposite of their input order. -/
theorem procesar_sort_reverses_tied_rows :
    g1.h_index = g2.h_index ∧ g1.citas = g2.citas ∧ g1 ≠ g2 ∧
    sortHindexDesc [g1, g2] = [g2, g1] := by decide

/-- C7 amended: the scholar-pipeline ranking sort
(`MetricsCalculator.generate_ranking`, a multi-column stable lexsort)
is stable — the rows carrying any fixed (h-index, citations) key appear
in the sorted output in their input order — while the openalex-variant
single-column descending sort reverses fully tied rows (pandas reverses
the ascending argsort for `ascending=False`), so tie order is not
preserved on that path. -/
theorem ranking_sort_stability_by_path :
    (∀ (rows : List Scored) (h c : Int),
      (sortScored rows).filter
          (fun r => decide (r.h_index = h) && decide (r.citations = c)) =
        rows.filter (fun r => decide (r.h_index = h) && decide (r.citations = c))) ∧
    (∀ x1 x2 : FilaS, x1.h_index = x2.h_index →
      sortHindexDesc [x1, x2] = [x2, x1]) := by
  constructor
  · intro rows h c
    unfold sortScored
    apply filter_insertionSort_stable
    intro a b ha hb
    simp only [Bool.and_eq_true, decide_eq_true_eq] at ha hb
    unfold rRank
    exact Or.inr ⟨by rw [ha.1, hb.1], by rw [ha.2, hb.2]⟩
  · intro x1 x2 hh
    unfold sortHindexDesc
    simp only [List.insertionSort, List.orderedInsert]
    rw [if_pos (show rHasc x1 x2 from le_of_eq hh)]
    rfl

/-- C7 amended witness: stability of the scholar-pipeline sort at the
scenario batch, and the concrete tied pair reversed by the
openalex-variant sort. -/
theorem ranking_sort_stability_by_path_witness :
    (sortScored (scoredData ejemploC3)).filter
        (fun r => decide (r.h_index = 10) && decide (r.citations = 500)) =
      (scoredData ejemploC3).filter
        (fun r => decide (r.h_index = 10) && decide (r.citations = 500)) ∧
    sortHindexDesc [g1, g2] = [g2, g1] := by
  have h := ranking_sort_stability_by_path
  exact ⟨h.1 (scoredData ejemploC3) 10 500, h.2 g1 g2 (by decide)⟩

/-- C1 counterexample: the scholar-pipeline dedup
(`MetricsCalculator._clean_data`, `drop_duplicates(keep='first')`) does
not keep the numerics of the higher-citation record — with the spec
scenario's numbers (citations 80 / h-index 12 encountered first,
citations 100 / h-index 10 second) the merged record keeps the
80-citation numerics, so the outcome depends on encounter order. -/
theorem dedup_keeps_first_not_higher_citations :
    aCit80.scholar_id = aCit100.scholar_id ∧
    aCit80.citations = 80 ∧ aCit100.citations = 100 ∧
    aCit80.h_index = 12 ∧ aCit100.h_index = 10 ∧
    cleanData [aCit80, aCit100] = [aCit80] := by decide

/-- C1 amended: the cross-source OpenAlex merge keeps (in full) the
record with strictly more citations regardless of encounter order,
while the scholar-pipeline dedup keeps the first-encountered record per
`scholar_id` regardless of citation counts. -/
theorem reconciliation_higher_citations_vs_first (r1 r2 : OAuthor) (a1 a2 : Author)
    (hid : r1.openalex_id = r2.openalex_id) (hc : r2.citas < r1.citas)
    (hsid : a1.scholar_id = a2.scholar_id) :
    combineAuthors [r1, r2] = [r1] ∧ combineAuthors [r2, r1] = [r1] ∧
    cleanData [a1, a2] = [a1] := by
  refine ⟨?_, ?_, ?_⟩
  · simp only [combineAuthors, List.foldl, insertaAutor]
    rw [if_pos hid, if_neg (not_lt.mpr hc.le)]
    simp
  · simp only [combineAuthors, List.foldl, insertaAutor]
    rw [if_pos hid.symm, if_pos hc]
    simp
  · simp [cleanData, dedupScholar, hsid]

/-- C1 amended witness: the spec scenario's two OpenAlex records
(citations 100 / h-index 10 versus citations 80 / h-index 12) merge to
the 100-citation record in both orders, and the scholar pair dedups to
the first record. -/
theorem reconciliation_higher_citations_vs_first_witness :
    combineAuthors [oaCit100, oaCit80] = [oaCit100] ∧
    combineAuthors [oaCit80, oaCit100] = [oaCit100] ∧
    cleanData [aCit80, aCit100] = [aCit80] :=
  reconciliation_higher_citations_vs_first oaCit100 oaCit80 aCit80 aCit100
    (by decide) (by decide) (by decide)

/-- C10: when the cross-source merge meets the same identifier twice
with equal citation counts, the first-encountered record is kept in its
entirety (replacement needs a strictly greater count). -/
theorem merge_tie_keeps_first_record (r1 r2 : OAuthor)
    (hid : r1.openalex_id = r2.openalex_id) (hc : r1.citas = r2.citas) :
    combineAuthors [r1, r2] = [r1] := by
  simp only [combineAuthors, List.foldl, insertaAutor]
  rw [if_pos hid, if_neg (by rw [hc]; exact lt_irrefl r2.citas)]
  simp

/-- C10 witness: two concrete tied-citation duplicates merge to the
earlier record. -/
theorem merge_tie_keeps_first_record_witness :
    combineAuthors [oaTie1, oaTie2] = [oaTie1] :=
  merge_tie_keeps_first_record oaTie1 oaTie2 (by decide) (by decide)

/-- C6: no record whose affiliation is on the exclusion affiliation set
(which contains "Gobierno de Chile") ever appears in the final output
of the `procesar_ranking` pipeline, whatever its numeric metrics: the
affiliation exclusion runs before the h-index threshold and nothing
downstream alters the affiliation. -/
theorem excluded_affiliation_never_in_output (df : List Fila) (e : FilaR)
    (he : e ∈ pipelineProcesar df) :
    e.institucion ∉ EXCLUIR_AFILIACIONES ∧ "Gobierno de Chile" ∈ EXCLUIR_AFILIACIONES := by
  refine ⟨?_, by decide⟩
  obtain ⟨⟨⟨f1, dis1⟩, sid1⟩, r1⟩ := e
  unfold pipelineProcesar at he
  have h1 := mem_conRanking 1 _ he
  unfold sortHindexDesc at h1
  rw [List.mem_reverse, List.mem_insertionSort] at h1
  unfold agregarScholarIds at h1
  obtain ⟨d, hd, hfd⟩ := List.mem_map.mp h1
  injection hfd with hd_eq hsid_eq
  subst hd_eq
  unfold agregarDisciplina at hd
  obtain ⟨f0, hf0, hff⟩ := List.mem_map.mp hd
  injection hff with hf_eq hdis_eq
  subst hf_eq
  unfold filtrarPorHindex at hf0
  have hlim : f0 ∈ limpiarDatos df := (List.mem_filter.mp hf0).1
  unfold limpiarDatos at hlim
  simp only [List.mem_filter] at hlim
  have ha : (!EXCLUIR_AFILIACIONES.contains f0.institucion) = true := hlim.1.1.2
  simpa using ha

/-- C6 witness: the clean row `fTest` survives the pipeline as `eTest`,
whose affiliation is not on the exclusion set. -/
theorem excluded_affiliation_never_in_output_witness :
    eTest.institucion ∉ EXCLUIR_AFILIACIONES ∧
      "Gobierno de Chile" ∈ EXCLUIR_AFILIACIONES :=
  excluded_affiliation_never_in_output [fTest] eTest (by decide)

/-- C9 counterexample: the lookup is not diacritic-insensitive — the
two spellings "Darío Páez" and "Dario Paez" differ only in diacritics
(they fold to the same string) yet map to different supplementary
identifiers: the accented spelling hits the registry, the plain one
yields the empty string. -/
theorem name_lookup_not_diacritic_insensitive :
    specDiacriticFold "Darío Páez" = specDiacriticFold "Dario Paez" ∧
    buscarScholarId "Darío Páez" "" = "KVva2AIAAAAJ" ∧
    buscarScholarId "Dario Paez" "" = "" ∧
    buscarScholarId "Darío Páez" "" ≠ buscarScholarId "Dario Paez" "" := by decide

/-- C9 amended: the lookup is total (a name matched neither exactly nor
after hyphen normalisation yields the empty string, not an error) and
hyphen-variant-insensitive for names without an exact registry entry
(U+2010 and U+2013 are folded to the ASCII hyphen before the fallback
lookup); it is not diacritic-insensitive. -/
theorem name_lookup_hyphen_fallback_total (n1 n2 af1 af2 : String)
    (h1 : SCHOLAR_IDS_CONOCIDOS.lookup n1 = none)
    (h2 : SCHOLAR_IDS_CONOCIDOS.lookup n2 = none)
    (hn : normalizarNombre n1 = normalizarNombre n2) :
    buscarScholarId n1 af1 = buscarScholarId n2 af2 ∧
      (SCHOLAR_IDS_CONOCIDOS.lookup (normalizarNombre n1) = none →
        buscarScholarId n1 af1 = "") := by
  unfold buscarScholarId
  rw [h1, h2, hn]
  refine ⟨rfl, fun h => ?_⟩
  rw [h]

/-- C9 amended witness: a U+2010 spelling and its ASCII-hyphen variant,
neither in the registry, agree on the (empty) result. -/
theorem name_lookup_hyphen_fallback_total_witness :
    buscarScholarId "Juan‐Carlos Prueba" "" = buscarScholarId "Juan-Carlos Prueba" "" ∧
      (SCHOLAR_IDS_CONOCIDOS.lookup (normalizarNombre "Juan‐Carlos Prueba") = none →
        buscarScholarId "Juan‐Carlos Prueba" "" = "") :=
  name_lookup_hyphen_fallback_total "Juan‐Carlos Prueba" "Juan-Carlos Prueba" "" ""
    (by decide) (by decide) (by decide)

/-- C2 counterexample: under an upstream whose first page fails three
times and then serves an empty page, the loop issues four requests for
that single page — it retried the same page three times, not at most
once, before the page finally succeeded. -/
theorem page_loop_retries_more_than_once :
    runLoop oracleTresErrores 10 initSt =
      ({ cursor := some "*", authors := [], page := 0, reqs := 4 }, true) ∧
    2 < (runLoop oracleTresErrores 10 initSt).1.reqs := by decide

/-- Under a permanently failing upstream the loop never exits and the
request count grows with the fuel. -/
theorem runLoop_allErr :
    ∀ (n : ℕ) (st : LoopSt), cursorTruthy st.cursor = true →
      runLoop (fun _ => Resp.err) n st = ({ st with reqs := st.reqs + n }, false) := by
  intro n
  induction n with
  | zero =>
    intro st h
    simp [runLoop]
  | succ k ih =>
    intro st h
    rw [show runLoop (fun _ => Resp.err) (k + 1) st
        = runLoop (fun _ => Resp.err) k { st with reqs := st.reqs + 1 } from by
      simp [runLoop, h]]
    rw [ih { st with reqs := st.reqs + 1 } h]
    have harith : st.reqs + 1 + k = st.reqs + (k + 1) := by omega
    rw [harith]

/-- C2 amended: the page loop stops exactly on a falsy cursor or an
empty `results` page; a transport error waits the fixed backoff and
retries the same page with the state unchanged and no retry cap, so
under a persistently failing page the number of requests issued is
unbounded (the loop never terminates). -/
theorem page_loop_termination_and_retry_behaviour :
    (∀ (oracle : ℕ → Resp) (fuel : ℕ) (st : LoopSt),
        cursorTruthy st.cursor = false → runLoop oracle (fuel + 1) st = (st, true)) ∧
    (∀ (oracle : ℕ → Resp) (fuel : ℕ) (st : LoopSt) (nextCur : Option String),
        cursorTruthy st.cursor = true → oracle st.reqs = Resp.ok [] nextCur →
        runLoop oracle (fuel + 1) st = ({ st with reqs := st.reqs + 1 }, true)) ∧
    (∀ (oracle : ℕ → Resp) (fuel : ℕ) (st : LoopSt),
        cursorTruthy st.cursor = true → oracle st.reqs = Resp.err →
        runLoop oracle (fuel + 1) st = runLoop oracle fuel { st with reqs := st.reqs + 1 }) ∧
    (∀ n : ℕ, runLoop (fun _ => Resp.err) n initSt = ({ initSt with reqs := n }, false)) := by
  refine ⟨?_, ?_, ?_, ?_⟩
  · intro oracle fuel st h
    simp [runLoop, h]
  · intro oracle fuel st nextCur h hok
    simp [runLoop, h, hok]
  · intro oracle fuel st h herr
    simp [runLoop, h, herr]
  · intro n
    simpa [initSt] using runLoop_allErr n initSt (by decide)

/-- C2 amended witness: the four behaviours at concrete states — exit
on falsy cursor, exit on an empty page, error leaving the state
unchanged but for the request count, and five requests issued after
five errors with the loop still running. -/
theorem page_loop_termination_and_retry_behaviour_witness :
    runLoop (fun _ => Resp.ok [] none) 1 { cursor := none, authors := [], page := 0, reqs := 0 } =
      ({ cursor := none, authors := [], page := 0, reqs := 0 }, true) ∧
    runLoop (fun _ => Resp.ok [] none) 1 initSt = ({ initSt with reqs := 1 }, true) ∧
    runLoop (fun _ => Resp.err) 1 initSt = runLoop (fun _ => Resp.err) 0 { initSt with reqs := 1 } ∧
    runLoop (fun _ => Resp.err) 5 initSt = ({ initSt with reqs := 5 }, false) := by
  have h := page_loop_termination_and_retry_behaviour
  exact ⟨h.1 _ 0 _ (by decide), h.2.1 _ 0 _ none (by decide) rfl,
    h.2.2.1 _ 0 _ (by decide) rfl, h.2.2.2 5⟩

/-- C8 counterexample: with the credential absent no request is issued,
but the caller receives plain `None` (per call) and the empty list (per
batch) — byte-for-byte the same outcome an ordinary transport failure
produces with a credential present, so no configuration-error outcome
is observable to the caller. -/
theorem missing_credential_silent_empty :
    getAuthorById none (SerpTransport.httpOk aW) = (none, 0) ∧
    getAuthorById (some "key") SerpTransport.exc = (none, 1) ∧
    (getAuthorById none (SerpTransport.httpOk aW)).1 =
      (getAuthorById (some "key") SerpTransport.exc).1 ∧
    fetchWithSerpapi none [SerpTransport.httpOk aW] = ([], 0) ∧
    (fetchWithSerpapi none [SerpTransport.httpOk aW]).1 =
      (fetchWithSerpapi (some "key") [SerpTransport.exc]).1 := by decide

/-- C8 amended: a falsy credential short-circuits before any network
call — zero HTTP requests are issued and an actionable message is
logged — but the value returned to the caller is the ordinary `None` /
empty-list result, not a distinguished configuration-error outcome. -/
theorem missing_credential_failfast_empty (k : Option String)
    (hk : keyTruthy k = false) (t : SerpTransport) (ts : List SerpTransport) :
    getAuthorById k t = (none, 0) ∧ fetchWithSerpapi k ts = ([], 0) := by
  constructor
  · simp [getAuthorById, hk]
  · simp [fetchWithSerpapi, hk]

/-- C8 amended witness: with no credential, a call and a batch fetch
both return empty without issuing a request. -/
theorem missing_credential_failfast_empty_witness :
    getAuthorById none SerpTransport.exc = (none, 0) ∧
    fetchWithSerpapi none [SerpTransport.exc] = ([], 0) :=
  missing_credential_failfast_empty none (by decide) SerpTransport.exc [SerpTransport.exc]

end RankingCS
